import Mathlib

/-!
Verification of the SolidFire cluster-admin account module
(`library/sf_user_account.py`): a shallow embedding of the
`SolidFireUserAccount` class and proofs about its reconciliation logic.

Modelling conventions:
- every Ansible module parameter is declared with `required=False`, so each
  is an `Option` in the embedding (`None` maps to `none`);
- Python `==` between two optional values behaves exactly like equality of
  `Option` values (`None == None` is true, `None == 7` is false);
- the remote SolidFire SDK calls made during one run of `apply` are
  recorded, in order, in a call trace; `list_cluster_admins` is the
  read-only lookup, the other four calls mutate the cluster;
- the expression `self._accountid` on line 250 of `apply` reads an
  attribute that `__init__` never assigns (it assigns `account_id`), so
  evaluating it raises `AttributeError`; the embedding returns that error
  through `Except`.
-/

namespace SfUserAccount

/-- An observed cluster-admin record as returned by the transport layer
(`list_cluster_admins().cluster_admins`). The fields are the attributes the
module reads: `cluster_admin_id`, `access` and `account_password`, plus the
account name, which the module never reads during lookup or diff. -/
structure ClusterAdmin where
  cluster_admin_id : Option Int
  username : String
  access : Option (List String)
  account_password : Option String
  deriving Repr, DecidableEq

/-- The caller-supplied module parameters, one field per entry of the
`argument_spec` built in `SolidFireUserAccount.__init__` (lines 112-120);
every parameter is optional (`required=False`). -/
structure Params where
  state : Option String
  account_name : Option String
  account_id : Option Int
  role : Option String
  user_type : Option String
  account_password : Option String
  access : Option String
  deriving Repr, DecidableEq

/-- Role-to-access mapping from `SolidFireUserAccount.__init__` (lines
136-141): `administrator` and `system engineer` map to fixed lists and every
other value (an absent role included) falls back to
`['nodes', 'accounts', 'drives']`. -/
def resolveAccess (role : Option String) : List String :=
  if role = some "administrator" then
    ["reporting", "volumes", "nodes", "accounts", "drives"]
  else if role = some "system engineer" then
    ["reporting", "volumes"]
  else
    ["nodes", "accounts", "drives"]

/-- The state variables `__init__` copies out of `module.params` (lines
126-141), plus the derived `self.access`. The `access` module parameter is
not among the copied fields: `__init__` never reads `p['access']`, and
`self.access` is always the role-derived list. -/
structure SolidFireUserAccount where
  state : Option String
  account_name : Option String
  account_id : Option Int
  role : Option String
  user_type : Option String
  account_password : Option String
  access : List String
  deriving Repr, DecidableEq

/-- Embedding of the state set-up of `SolidFireUserAccount.__init__` (lines
126-141): copy the parameters into attributes and derive `self.access` from
the role alone. -/
def init (p : Params) : SolidFireUserAccount :=
  { state := p.state
    account_name := p.account_name
    account_id := p.account_id
    role := p.role
    user_type := p.user_type
    account_password := p.account_password
    access := resolveAccess p.role }

/-- Embedding of `get_user_account_by_id` (lines 148-162): scan the listed
`cluster_admins` in order and return the first entry whose
`cluster_admin_id` equals `self.account_id`, or `None` when the loop finds
no match. -/
def get_user_account_by_id (self : SolidFireUserAccount) :
    List ClusterAdmin → Option ClusterAdmin
  | [] => none
  | account :: rest =>
    if self.account_id = account.cluster_admin_id then some account
    else get_user_account_by_id self rest

/-- Remote SDK operations a run of the module can issue, with the arguments
the source passes at each call site. -/
inductive RemoteCall where
  | list_cluster_admins : RemoteCall
  | add_cluster_admin (username : Option String) (password : Option String)
      (access : List String) : RemoteCall
  | add_ldap_cluster_admin (username : Option String)
      (access : List String) : RemoteCall
  | modify_cluster_admin (cluster_admin_id : Option Int)
      (password : Option String) (access : List String) : RemoteCall
  | remove_cluster_admin (cluster_admin_id : Option Int) : RemoteCall
  deriving Repr, DecidableEq

/-- A remote call is mutating unless it is the read-only lookup. -/
def RemoteCall.isMutating : RemoteCall → Bool
  | .list_cluster_admins => false
  | _ => true

/-- A Python runtime error surfaced by the embedded code: reading the
attribute `self._accountid` in `apply` (line 250) raises `AttributeError`
because `__init__` assigns `account_id`, never `_accountid`. -/
inductive PyError where
  | attributeError (attr : String) : PyError
  deriving Repr, DecidableEq

/-- The payload the module hands to `module.exit_json` (line 287). -/
structure ExitJson where
  changed : Bool
  msg : String
  deriving Repr, DecidableEq

/-- Outcome of one run of `apply`: the remote calls issued, in order, and
either the `exit_json` payload or the Python error that aborted the run. -/
structure RunOutcome where
  calls : List RemoteCall
  result : Except PyError ExitJson
  deriving Repr

/-- Embedding of the decision section of `apply` (lines 232-262): given the
looked-up `account_detail`, compute `(changed, update_account)` or raise.
The chain is evaluated exactly as Python does it: the `absent` branch first;
then for `present` the access comparison (`account_detail.access is not
None and self.access is not None and account_detail.access != self.access`,
where `self.access is not None` always holds since `__init__` always
assigns a list, and `!=` is order-sensitive list inequality); then the
guard `account_detail.cluster_admin_id is not None`, whose success forces
evaluation of `self._accountid` and hence an `AttributeError`; then the
password comparison. -/
def decidePhase (self : SolidFireUserAccount)
    (account_detail : Option ClusterAdmin) : Except PyError (Bool × Bool) :=
  match account_detail with
  | some a =>
    if self.state = some "absent" then
      .ok (true, false)
    else if self.state = some "present" then
      if a.access ≠ none ∧ a.access ≠ some self.access then
        .ok (true, true)
      else if a.cluster_admin_id ≠ none then
        .error (.attributeError "_accountid")
      else if a.account_password ≠ none ∧ self.account_password ≠ none ∧
          a.account_password ≠ self.account_password then
        .ok (true, true)
      else
        .ok (false, false)
    else
      .ok (false, false)
  | none =>
    if self.state = some "present" then
      .ok (true, false)
    else
      .ok (false, false)

/-- Embedding of `apply` (lines 227-287): look the account up, run the
decision chain, honour check mode, and dispatch the execution section
(lines 266-287), recording every remote call in order. The messages are the
exact strings of the source, including the misspelling on line 281. -/
def apply (self : SolidFireUserAccount) (cluster_admins : List ClusterAdmin)
    (check_mode : Bool) : RunOutcome :=
  let account_detail := get_user_account_by_id self cluster_admins
  let account_exists := account_detail.isSome
  match decidePhase self account_detail with
  | .error e => { calls := [.list_cluster_admins], result := .error e }
  | .ok (changed, _update_account) =>
    if changed then
      if check_mode then
        { calls := [.list_cluster_admins]
          result := .ok { changed := changed, msg := "Check mode, skipping changes" } }
      else
        if self.state = some "present" then
          if !account_exists then
            if self.user_type = some "ldap" then
              { calls := [.list_cluster_admins,
                  .add_ldap_cluster_admin self.account_name self.access]
                result := .ok { changed := changed, msg := "LDAP user account created" } }
            else if self.user_type = some "cluster" then
              { calls := [.list_cluster_admins,
                  .add_cluster_admin self.account_name self.account_password self.access]
                result := .ok { changed := changed, msg := "Cluster user account created" } }
            else
              { calls := [.list_cluster_admins]
                result := .ok { changed := changed, msg := "" } }
          else
            { calls := [.list_cluster_admins,
                .modify_cluster_admin self.account_id self.account_password self.access]
              result := .ok { changed := changed, msg := "User account updated succesfully" } }
        else if self.state = some "absent" then
          { calls := [.list_cluster_admins, .remove_cluster_admin self.account_id]
            result := .ok { changed := changed, msg := "Account deleted successfully" } }
        else
          { calls := [.list_cluster_admins]
            result := .ok { changed := changed, msg := "" } }
    else
      { calls := [.list_cluster_admins]
        result := .ok { changed := changed, msg := "" } }

/-- Record updates that only touch the account name preserve the id. -/
theorem rename_cluster_admin_id (a : ClusterAdmin) (n : String) :
    ({ a with username := n } : ClusterAdmin).cluster_admin_id
      = a.cluster_admin_id := rfl

/-- The lookup returns none when no listed id equals the desired one. -/
theorem lookup_eq_none (self : SolidFireUserAccount)
    (cluster_admins : List ClusterAdmin)
    (h : ∀ a ∈ cluster_admins, self.account_id ≠ a.cluster_admin_id) :
    get_user_account_by_id self cluster_admins = none := by
  induction cluster_admins with
  | nil => rfl
  | cons a rest ih =>
    unfold get_user_account_by_id
    rw [if_neg (h a (List.mem_cons_self a rest))]
    exact ih fun b hb => h b (List.mem_cons_of_mem a hb)

/-- C7: the lookup scans the listed accounts for an id equal to the desired
`account_id`: when no listed id equals it (in particular when the desired id
is absent and every listed id is an integer) it returns none; any returned
account is a listed one whose id equals the desired id; and renaming every
listed account (by an arbitrary function of the old name) commutes with the
lookup, so the account name is never consulted. -/
theorem c7_lookup_by_id (self : SolidFireUserAccount)
    (cluster_admins : List ClusterAdmin) :
    ((∀ a ∈ cluster_admins, self.account_id ≠ a.cluster_admin_id) →
        get_user_account_by_id self cluster_admins = none) ∧
    (∀ a, get_user_account_by_id self cluster_admins = some a →
        a ∈ cluster_admins ∧ self.account_id = a.cluster_admin_id) ∧
    (∀ rename : String → String,
        get_user_account_by_id self
            (cluster_admins.map fun a => { a with username := rename a.username })
          = (get_user_account_by_id self cluster_admins).map
              fun a => { a with username := rename a.username }) := by
  refine ⟨lookup_eq_none self cluster_admins, ?_, ?_⟩
  · induction cluster_admins with
    | nil => intro a h; cases h
    | cons b rest ih =>
      intro a h
      unfold get_user_account_by_id at h
      by_cases hb : self.account_id = b.cluster_admin_id
      · rw [if_pos hb] at h
        cases h
        exact ⟨List.mem_cons_self b rest, hb⟩
      · rw [if_neg hb] at h
        obtain ⟨hm, he⟩ := ih a h
        exact ⟨List.mem_cons_of_mem b hm, he⟩
  · intro rename
    induction cluster_admins with
    | nil => rfl
    | cons b rest ih =>
      simp only [List.map_cons]
      unfold get_user_account_by_id
      simp only [rename_cluster_admin_id]
      by_cases hb : self.account_id = b.cluster_admin_id
      · rw [if_pos hb, if_pos hb]
        rfl
      · rw [if_neg hb, if_neg hb]
        exact ih

/-- Parameter record with an absent account id (and every other parameter
absent except the name), used to exercise the lookup. -/
def paramsNoId : Params :=
  { state := none
    account_name := some "ops1"
    account_id := none
    role := none
    user_type := none
    account_password := none
    access := none }

/-- An observed account whose id is the integer 5. -/
def observedId5 : ClusterAdmin :=
  { cluster_admin_id := some 5
    username := "bob"
    access := none
    account_password := none }

/-- Witness for C7 with an absent desired id against an integer-id list. -/
theorem c7_lookup_by_id_witness :
    get_user_account_by_id (init paramsNoId) [observedId5] = none :=
  (c7_lookup_by_id _ _).1 (by decide)

/-- Desired-state parameters of the spec's Scenario B: Present, account id
7, role "system engineer". -/
def scenarioB : Params :=
  { state := some "present"
    account_name := none
    account_id := some 7
    role := some "system engineer"
    user_type := none
    account_password := none
    access := none }

/-- Observed account of Scenario B: id 7 with access equal (as a list) to
the effective desired access list for role "system engineer". -/
def observedB : ClusterAdmin :=
  { cluster_admin_id := some 7
    username := "bob"
    access := some ["reporting", "volumes"]
    account_password := none }

/-- C1: at the Scenario B input (desired state Present, accountId 7, role
"system engineer"; observed account with id 7 whose access list equals the
effective desired list), the module does not reach a NoOp result with
changed=false: after the read-only lookup, evaluating the never-assigned
attribute `self._accountid` aborts the run with an `AttributeError`. -/
theorem c1_scenario_b_attribute_error :
    apply (init scenarioB) [observedB] false
      = { calls := [.list_cluster_admins],
          result := .error (.attributeError "_accountid") } := rfl

/-- Parameter record supplying the explicit access override Read (as on the
update example of the module documentation) with no role. -/
def paramsWithOverride : Params :=
  { state := some "present"
    account_name := none
    account_id := some 7
    role := none
    user_type := none
    account_password := none
    access := some "Read" }

/-- C3: the supplied `access` parameter never becomes the effective
permission set: for every parameter record the effective `self.access` used
for the diff and for every create or update call is derived from the role
alone, and at the concrete input that supplies the override Read with no
role the effective set is the role fallback {nodes, accounts, drives}, not
{Read}. -/
theorem c3_access_override_ignored :
    (∀ p : Params, (init p).access = resolveAccess p.role) ∧
    (init paramsWithOverride).access = ["nodes", "accounts", "drives"] ∧
    paramsWithOverride.access = some "Read" :=
  ⟨fun _ => rfl, rfl, rfl⟩

/-- In check mode the execution section issues no further remote call: the
outcome is the lookup call plus the decision mapped onto its `exit_json`
payload. -/
theorem apply_check_mode (self : SolidFireUserAccount)
    (cluster_admins : List ClusterAdmin) :
    apply self cluster_admins true =
      { calls := [.list_cluster_admins],
        result :=
          (decidePhase self (get_user_account_by_id self cluster_admins)).map
            fun cu =>
              { changed := cu.1
                msg := if cu.1 then "Check mode, skipping changes" else "" } } := by
  simp only [apply]
  cases hd : decidePhase self (get_user_account_by_id self cluster_admins) with
  | error e => rfl
  | ok cu =>
    obtain ⟨c, u⟩ := cu
    cases c <;> rfl

/-- C5: in check mode (dry run) the run issues no mutating remote call —
the call trace is exactly the read-only lookup — and whenever the decision
chain reports a change (a non-NoOp decision) the run still returns
changed=true, with the check-mode message. -/
theorem c5_dry_run_no_mutation (p : Params)
    (cluster_admins : List ClusterAdmin) :
    (apply (init p) cluster_admins true).calls.filter RemoteCall.isMutating
        = [] ∧
    ∀ upd, decidePhase (init p) (get_user_account_by_id (init p) cluster_admins)
        = .ok (true, upd) →
      (apply (init p) cluster_admins true).result
        = .ok { changed := true, msg := "Check mode, skipping changes" } := by
  rw [apply_check_mode]
  refine ⟨rfl, fun upd h => ?_⟩
  rw [h]
  rfl

/-- Desired-state parameters of the spec's Scenario D: Absent, account id
9. -/
def scenarioD : Params :=
  { state := some "absent"
    account_name := none
    account_id := some 9
    role := none
    user_type := none
    account_password := none
    access := none }

/-- Observed account of Scenario D: an existing account with id 9. -/
def observedD : ClusterAdmin :=
  { cluster_admin_id := some 9
    username := "bob"
    access := none
    account_password := none }

/-- Witness for C5: an absent desired state addressing an existing account
(the decision is Delete, not NoOp), run in check mode. -/
theorem c5_dry_run_no_mutation_witness :
    (apply (init scenarioD) [observedD] true).calls.filter
        RemoteCall.isMutating = [] ∧
    (apply (init scenarioD) [observedD] true).result
      = .ok { changed := true, msg := "Check mode, skipping changes" } :=
  ⟨(c5_dry_run_no_mutation _ _).1, (c5_dry_run_no_mutation _ _).2 false rfl⟩

/-- C4: the access resolver is a total function of the role, mapping
`administrator` to exactly {reporting, volumes, nodes, accounts, drives},
`system engineer` to exactly {reporting, volumes}, and every other value
(an absent role included) to exactly {nodes, accounts, drives}. -/
theorem c4_resolveAccess_total :
    resolveAccess (some "administrator")
        = ["reporting", "volumes", "nodes", "accounts", "drives"] ∧
    resolveAccess (some "system engineer") = ["reporting", "volumes"] ∧
    ∀ role : Option String, role ≠ some "administrator" →
      role ≠ some "system engineer" →
      resolveAccess role = ["nodes", "accounts", "drives"] := by
  refine ⟨rfl, rfl, fun role h1 h2 => ?_⟩
  unfold resolveAccess
  rw [if_neg h1, if_neg h2]

/-- Witness for C4 at the concrete absent role. -/
theorem c4_resolveAccess_total_witness :
    resolveAccess none = ["nodes", "accounts", "drives"] :=
  c4_resolveAccess_total.2.2 none (by decide) (by decide)

/-- With no account found, a Present desired state decides a change (the
create path) with no update flag. -/
theorem decidePhase_none_present (self : SolidFireUserAccount)
    (h : self.state = some "present") :
    decidePhase self none = .ok (true, false) := by
  unfold decidePhase
  rw [h]
  rfl

/-- With no account found, any non-Present desired state decides no
change. -/
theorem decidePhase_none_not_present (self : SolidFireUserAccount)
    (h : self.state ≠ some "present") :
    decidePhase self none = .ok (false, false) := by
  unfold decidePhase
  rw [if_neg h]

/-- C6: an Absent desired state whose account id matches no listed account
is a NoOp: the run issues only the read-only lookup and returns
changed=false with an empty message, in or out of check mode. -/
theorem c6_absent_not_found (p : Params) (cluster_admins : List ClusterAdmin)
    (check_mode : Bool) (hstate : p.state = some "absent")
    (hmiss : ∀ a ∈ cluster_admins, p.account_id ≠ a.cluster_admin_id) :
    apply (init p) cluster_admins check_mode
      = { calls := [.list_cluster_admins]
          result := .ok { changed := false, msg := "" } } := by
  have hstate' : (init p).state = some "absent" := hstate
  have hfind : get_user_account_by_id (init p) cluster_admins = none :=
    lookup_eq_none _ _ hmiss
  have hdec : decidePhase (init p) none = .ok (false, false) :=
    decidePhase_none_not_present _ (by rw [hstate']; decide)
  simp only [apply]
  rw [hfind, hdec]
  rfl

/-- Desired-state parameters of the spec's Scenario E: Absent, account id
42. -/
def scenarioE : Params :=
  { state := some "absent"
    account_name := none
    account_id := some 42
    role := none
    user_type := none
    account_password := none
    access := none }

/-- Witness for C6 at the Scenario E input: Absent, id 42, no matching
observed account. -/
theorem c6_absent_not_found_witness :
    apply (init scenarioE) [observedId5] false
      = { calls := [.list_cluster_admins]
          result := .ok { changed := false, msg := "" } } :=
  c6_absent_not_found scenarioE [observedId5] false rfl (by decide)

/-- C8: one run issues at most one mutating remote call, whatever the
desired state, the observed account list and the check-mode flag: every
branch of the execution section appends at most one call after the
read-only lookup. -/
theorem c8_at_most_one_mutating_call (self : SolidFireUserAccount)
    (cluster_admins : List ClusterAdmin) (check_mode : Bool) :
    ((apply self cluster_admins check_mode).calls.filter
        RemoteCall.isMutating).length ≤ 1 := by
  simp only [apply]
  repeat' split
  all_goals simp [RemoteCall.isMutating]

/-- Parameters that are internally inconsistent in the sense of the spec:
Present with cluster user type and no password supplied. -/
def paramsClusterNoPassword : Params :=
  { state := some "present"
    account_name := some "ops1"
    account_id := none
    role := some "administrator"
    user_type := some "cluster"
    account_password := none
    access := none }

/-- C9 counterexample: at the internally inconsistent input (Present,
cluster type, no password) with an empty observed list, the module raises
no configuration error and does not stop before remote calls: it issues the
read-only lookup, then the mutating create call with the absent password,
and reports success. -/
theorem c9_no_configuration_error_counterexample :
    apply (init paramsClusterNoPassword) [] false
      = { calls := [.list_cluster_admins,
            .add_cluster_admin (some "ops1") none
              ["reporting", "volumes", "nodes", "accounts", "drives"]]
          result := .ok { changed := true
                          msg := "Cluster user account created" } } := rfl

/-- C9 amended: the module performs no consistency validation of the
desired state: every Present cluster-type desired state with no password
whose id matches no observed account proceeds through the read-only lookup
and then invokes the mutating create call, passing the absent password; no
error of any kind is raised before the remote calls. -/
theorem c9_no_validation_before_remote_calls (p : Params)
    (cluster_admins : List ClusterAdmin)
    (hstate : p.state = some "present")
    (htype : p.user_type = some "cluster")
    (hpw : p.account_password = none)
    (hmiss : ∀ a ∈ cluster_admins, p.account_id ≠ a.cluster_admin_id) :
    apply (init p) cluster_admins false
      = { calls := [.list_cluster_admins,
            .add_cluster_admin p.account_name none (resolveAccess p.role)]
          result := .ok { changed := true
                          msg := "Cluster user account created" } } := by
  have hstate' : (init p).state = some "present" := hstate
  have htype' : (init p).user_type = some "cluster" := htype
  have hpw' : (init p).account_password = none := hpw
  have hname : (init p).account_name = p.account_name := rfl
  have hacc : (init p).access = resolveAccess p.role := rfl
  have hfind : get_user_account_by_id (init p) cluster_admins = none :=
    lookup_eq_none _ _ hmiss
  have hdec : decidePhase (init p) none = .ok (true, false) :=
    decidePhase_none_present _ hstate'
  simp [apply, hfind, hdec, hstate', htype', hpw', hname, hacc]

/-- Witness for C9: the inconsistent input against a one-element observed
list with a different id. -/
theorem c9_no_validation_before_remote_calls_witness :
    apply (init paramsClusterNoPassword) [observedId5] false
      = { calls := [.list_cluster_admins,
            .add_cluster_admin paramsClusterNoPassword.account_name none
              (resolveAccess paramsClusterNoPassword.role)]
          result := .ok { changed := true
                          msg := "Cluster user account created" } } :=
  c9_no_validation_before_remote_calls paramsClusterNoPassword [observedId5]
    rfl rfl rfl (by decide)

/-- C10: a Present desired state matching no observed account, whose user
type is neither ldap nor cluster, makes no create call at all — the create
dispatch has no branch for it — yet the run returns changed=true with an
empty result message. -/
theorem c10_unknown_user_type_no_create (p : Params)
    (cluster_admins : List ClusterAdmin)
    (hstate : p.state = some "present")
    (hldap : p.user_type ≠ some "ldap")
    (hcluster : p.user_type ≠ some "cluster")
    (hmiss : ∀ a ∈ cluster_admins, p.account_id ≠ a.cluster_admin_id) :
    apply (init p) cluster_admins false
      = { calls := [.list_cluster_admins]
          result := .ok { changed := true, msg := "" } } := by
  have hstate' : (init p).state = some "present" := hstate
  have hldap' : (init p).user_type ≠ some "ldap" := hldap
  have hcluster' : (init p).user_type ≠ some "cluster" := hcluster
  have hfind : get_user_account_by_id (init p) cluster_admins = none :=
    lookup_eq_none _ _ hmiss
  have hdec : decidePhase (init p) none = .ok (true, false) :=
    decidePhase_none_present _ hstate'
  simp [apply, hfind, hdec, hstate', hldap', hcluster']

/-- Parameters with a Present state and a user type that is neither ldap
nor cluster (here absent). -/
def paramsUnknownType : Params :=
  { state := some "present"
    account_name := some "ops1"
    account_id := none
    role := none
    user_type := none
    account_password := none
    access := none }

/-- Witness for C10 at the concrete unknown-user-type input. -/
theorem c10_unknown_user_type_no_create_witness :
    apply (init paramsUnknownType) [] false
      = { calls := [.list_cluster_admins]
          result := .ok { changed := true, msg := "" } } :=
  c10_unknown_user_type_no_create paramsUnknownType [] rfl (by decide)
    (by decide) (by decide)

/-- Observed account with id 7 whose access list is a reordering of the
effective desired list for role "system engineer". -/
def observedBReordered : ClusterAdmin :=
  { cluster_admin_id := some 7
    username := "bob"
    access := some ["volumes", "reporting"]
    account_password := none }

/-- C2 counterexample: the observed access list and the effective desired
list have the same membership in a different order, yet the comparison
reports them unequal and the run issues the mutating modify (Update) call
on ordering alone. -/
theorem c2_order_dependence_counterexample :
    List.Perm ["volumes", "reporting"] (resolveAccess (some "system engineer")) ∧
    ["volumes", "reporting"] ≠ resolveAccess (some "system engineer") ∧
    apply (init scenarioB) [observedBReordered] false
      = { calls := [.list_cluster_admins,
            .modify_cluster_admin (some 7) none ["reporting", "volumes"]]
          result := .ok { changed := true
                          msg := "User account updated succesfully" } } :=
  ⟨by decide, by decide, rfl⟩

/-- C2 amended: the access comparison that triggers Update is
order-sensitive list equality, not set equality: for every observed access
list with the same membership as the effective desired list but a different
order, the comparison reports a difference and the run issues the Update
(modify) call on ordering alone. -/
theorem c2_update_fires_on_reordering (p : Params) (i : Int) (n : String)
    (pw : Option String) (obs : List String)
    (hstate : p.state = some "present")
    (hid : p.account_id = some i)
    (_hmem : List.Perm obs (resolveAccess p.role))
    (hne : obs ≠ resolveAccess p.role) :
    apply (init p)
      [{ cluster_admin_id := some i
         username := n
         access := some obs
         account_password := pw }] false
      = { calls := [.list_cluster_admins,
            .modify_cluster_admin (some i) p.account_password
              (resolveAccess p.role)]
          result := .ok { changed := true
                          msg := "User account updated succesfully" } } := by
  have hstate' : (init p).state = some "present" := hstate
  have hid' : (init p).account_id = some i := hid
  have hpw' : (init p).account_password = p.account_password := rfl
  have hacc : (init p).access = resolveAccess p.role := rfl
  have hfound : get_user_account_by_id (init p)
      [{ cluster_admin_id := some i
         username := n
         access := some obs
         account_password := pw }]
      = some { cluster_admin_id := some i
               username := n
               access := some obs
               account_password := pw } := by
    simp [get_user_account_by_id, hid']
  have hdec : decidePhase (init p)
      (some { cluster_admin_id := some i
              username := n
              access := some obs
              account_password := pw })
      = .ok (true, true) := by
    simp [decidePhase, hstate', hacc, hne]
  simp [apply, hfound, hdec, hstate', hid', hpw', hacc]

/-- Witness for the amended C2 at the Scenario B parameters with the
reordered observed access list. -/
theorem c2_update_fires_on_reordering_witness :
    apply (init scenarioB) [observedBReordered] false
      = { calls := [.list_cluster_admins,
            .modify_cluster_admin (some 7) scenarioB.account_password
              (resolveAccess scenarioB.role)]
          result := .ok { changed := true
                          msg := "User account updated succesfully" } } :=
  c2_update_fires_on_reordering scenarioB 7 "bob" none ["volumes", "reporting"]
    rfl rfl (by decide) (by decide)

end SfUserAccount
